import Mathlib

/-!
# EcoAI tiered query router — verification development

Shallow embedding of the core routing/accounting logic of `src/local.py`
(class `EcoAI`): the rule engine (`handle_rule_based`), the complexity
classifier (`categorize_complexity`), the impact estimator
(`calculate_environmental_impact`), the stats aggregator (`update_stats`),
the backend adapters (`local_inference`, `cloud_inference`) and the router
(`answer_question`).

Modelling conventions:
* Python `str` operations used by the code (`lower`, `strip`, `split`,
  `replace`, substring `in`, `startswith`) are embedded as executable
  functions over `List Char` with Python semantics (ASCII case folding,
  ASCII whitespace); they are named `py*`.
* Python `float` arithmetic is modelled with `ℚ` (exact reals); the only
  coefficients involved (0.002, 25.0, 0.1, ...) are decimal.
* `datetime.now()` is modelled by an explicit `Clock` value carrying the
  two formatted strings the code interpolates; the wall clock is an input.
* The local backend (an opaque collaborator) is modelled by an
  `Option String` (its generated text, or `none` for load failure /
  generation error); the cloud backend by a `CloudResp` distinguishing
  transport-level failure from a parsed JSON body whose `content`,
  `usage.total_tokens` and reasoning-token fields may each be absent.
* Python `eval` on the operator-and-digit-restricted strings the rule
  engine feeds it is modelled by `evalArith`, a fuel-based
  tokenizer/precedence evaluator over `ℚ` returning `none` on any
  syntax or division error (the code swallows all such errors).
* The router additionally returns a `CallLog` recording which backends
  the call reached, so that "backend never invoked" claims are statable.
-/

/-! ## Python string primitives -/

/-- Python `str.lower` (ASCII case folding, as used by the code's
pattern matching). -/
def pyLower (s : String) : String := ⟨s.data.map Char.toLower⟩

/-- The whitespace characters recognised by Python `str.strip()` /
`str.split()` (ASCII fragment). -/
def pyIsSpace (c : Char) : Bool :=
  c = ' ' || c = '\t' || c = '\n' || c = '\r' || c = '\x0b' || c = '\x0c'

/-- Python `str.strip()`: drop leading and trailing whitespace. -/
def pyStrip (s : String) : String :=
  ⟨((s.data.dropWhile pyIsSpace).reverse.dropWhile pyIsSpace).reverse⟩

/-- Helper for `pySplitWs`: accumulate the current word (reversed). -/
def pySplitWsGo : List Char → List Char → List String
  | [], cur => if cur.isEmpty then [] else [⟨cur.reverse⟩]
  | c :: cs, cur =>
      if pyIsSpace c then
        if cur.isEmpty then pySplitWsGo cs []
        else ⟨cur.reverse⟩ :: pySplitWsGo cs []
      else pySplitWsGo cs (c :: cur)

/-- Python `str.split()` with no argument: split on whitespace runs,
discarding empty words. -/
def pySplitWs (s : String) : List String := pySplitWsGo s.data []

/-- Python `pat in s` (substring containment). -/
def listIsInfix (pat s : List Char) : Bool :=
  match s with
  | [] => pat.isEmpty
  | _ :: tl => pat.isPrefixOf s || listIsInfix pat tl

/-- Python `pat in s` on strings. -/
def containsSubstr (s pat : String) : Bool := listIsInfix pat.data s.data

/-- Python `s.startswith(pre)`. -/
def pyStartsWith (s pre : String) : Bool := pre.data.isPrefixOf s.data

/-- Helper for `pyReplace`: left-to-right scan replacing each
non-overlapping occurrence, with fuel bounding the scan length. -/
def pyReplaceAux : ℕ → List Char → List Char → List Char → List Char
  | 0, s, _, _ => s
  | fuel + 1, s, pat, rep =>
    match s with
    | [] => []
    | c :: cs =>
        if pat.isPrefixOf (c :: cs) then
          rep ++ pyReplaceAux fuel (List.drop pat.length (c :: cs)) pat rep
        else
          c :: pyReplaceAux fuel cs pat rep

/-- Python `s.replace(pat, rep)`: replace every non-overlapping
occurrence, scanning left to right. -/
def pyReplace (s pat rep : String) : String :=
  if pat = "" then s else ⟨pyReplaceAux s.data.length s.data pat.data rep.data⟩

/-- Python single-character containment `c in s`. -/
def pyHasChar (s : String) (c : Char) : Bool := s.data.contains c

/-- Python truthiness of an optional string: `None` and `""` are falsy.
The router tests each tier's answer this way (`if rule_response:` etc.). -/
def pyTruthy : Option String → Bool
  | none => false
  | some s => s != ""

/-! ## Impact Estimator — `EcoAI.calculate_environmental_impact` -/

/-- Model of `calculate_environmental_impact` (src/local.py:143-146):
`co2_grams = tokens_used * 0.002`, `water_ml = 25.0`. -/
def calculate_environmental_impact (tokens_used : ℕ) : ℚ × ℚ :=
  ((tokens_used : ℚ) * 0.002, 25.0)

/-! ## Stats Aggregator -/

/-- The `self.stats` dictionary of `EcoAI.__init__` (src/local.py:54-63). -/
structure Stats where
  rule_based_responses : ℕ
  local_responses : ℕ
  cloud_responses : ℕ
  tokens_saved : ℕ
  co2_saved_grams : ℚ
  water_saved_ml : ℚ
  total_tokens_used : ℕ
  reasoning_tokens_used : ℕ
deriving DecidableEq

/-- The all-zero stats a fresh `EcoAI` starts with. -/
def freshStats : Stats :=
  { rule_based_responses := 0, local_responses := 0, cloud_responses := 0,
    tokens_saved := 0, co2_saved_grams := 0, water_saved_ml := 0,
    total_tokens_used := 0, reasoning_tokens_used := 0 }

/-- Model of `EcoAI.update_stats` (src/local.py:148-171): centralized stats
update, keyed by the response-type string. -/
def update_stats (s : Stats) (response_type : String) (tokens : ℕ) : Stats :=
  if response_type = "rule-based" then
    let cw := calculate_environmental_impact 50
    { s with rule_based_responses := s.rule_based_responses + 1,
             tokens_saved := s.tokens_saved + 50,
             co2_saved_grams := s.co2_saved_grams + cw.1,
             water_saved_ml := s.water_saved_ml + cw.2 }
  else if response_type = "local" then
    let estimated_tokens := 100
    let cw := calculate_environmental_impact estimated_tokens
    { s with local_responses := s.local_responses + 1,
             tokens_saved := s.tokens_saved + estimated_tokens,
             co2_saved_grams := s.co2_saved_grams + cw.1,
             water_saved_ml := s.water_saved_ml + cw.2 }
  else if response_type = "cloud" then
    { s with cloud_responses := s.cloud_responses + 1,
             total_tokens_used := s.total_tokens_used + tokens }
  else s

/-! ## Complexity Classifier — `EcoAI.categorize_complexity` -/

/-- The ten "VERY complex indicators" (src/local.py:215-226). -/
def very_complex_keywords : List String :=
  ["write code",
   "create a program",
   "explain in detail",
   "comprehensive analysis",
   "step by step guide",
   "detailed explanation",
   "compare and contrast",
   "prove mathematically",
   "write an essay",
   "design a system"]

/-- Model of `EcoAI.categorize_complexity` (src/local.py:206-238): word count
over 40 or a very-complex keyword in the lowercased prompt means
"complex"; everything else is "simple". -/
def categorize_complexity (prompt : String) : String :=
  let prompt_lower := pyLower prompt
  let word_count := (pySplitWs prompt).length
  if word_count > 40 then "complex"
  else if very_complex_keywords.any (fun k => containsSubstr prompt_lower k) then "complex"
  else "simple"

/-! ## Arithmetic evaluation — model of Python `eval` on restricted input

The rule engine only calls `eval` on strings drawn from
`"0123456789+-*/(). "`.  On such strings Python `eval` computes ordinary
arithmetic with `+ - * /` at the usual precedences, unary signs, decimal
literals and parentheses; every failure (syntax error, division by zero)
raises, and the caller swallows the exception.  We model the evaluation
as a total function into `Option ℚ`, `none` standing for any raised
error. -/

/-- Exact fraction scratch representation used while evaluating (kept
unnormalised; the denominator is nonzero by construction).  The final
value is normalised into `ℚ` by `Frac.toRat`. -/
structure Frac where
  num : ℤ
  den : ℤ
deriving DecidableEq

/-- Fraction addition. -/
def Frac.add (a b : Frac) : Frac := ⟨a.num * b.den + b.num * a.den, a.den * b.den⟩

/-- Fraction subtraction. -/
def Frac.sub (a b : Frac) : Frac := ⟨a.num * b.den - b.num * a.den, a.den * b.den⟩

/-- Fraction multiplication. -/
def Frac.mul (a b : Frac) : Frac := ⟨a.num * b.num, a.den * b.den⟩

/-- Fraction division (caller checks the divisor is nonzero). -/
def Frac.div (a b : Frac) : Frac := ⟨a.num * b.den, a.den * b.num⟩

/-- Fraction negation. -/
def Frac.neg (a : Frac) : Frac := ⟨-a.num, a.den⟩

/-- Normalise into `ℚ`. -/
def Frac.toRat (a : Frac) : ℚ :=
  if a.den < 0 then mkRat (-a.num) (-a.den).toNat else mkRat a.num a.den.toNat

/-- Tokens of the arithmetic sub-language fed to `eval`. -/
inductive Tok where
  | num (q : Frac)
  | plus
  | minus
  | star
  | slash
  | lparen
  | rparen
deriving DecidableEq

/-- Numeric value of an ASCII digit. -/
def digitVal (c : Char) : ℕ := c.toNat - '0'.toNat

/-- Read a maximal run of digits, returning their values and the rest. -/
def readDigits : List Char → List ℕ × List Char
  | [] => ([], [])
  | c :: cs =>
      if c.isDigit then
        let r := readDigits cs
        (digitVal c :: r.1, r.2)
      else ([], c :: cs)

/-- The natural number denoted by a digit run. -/
def natOfDigits (ds : List ℕ) : ℕ := ds.foldl (fun a d => a * 10 + d) 0

/-- Ten to the k-th power as an integer (explicit recursion so that it evaluates by
kernel reduction). -/
def pow10 : ℕ → ℤ
  | 0 => 1
  | k + 1 => 10 * pow10 k

/-- Tokenizer for the arithmetic sub-language; fuel bounds the input
length.  A bare "." (no digits on either side) is a syntax error. -/
def tokenize : ℕ → List Char → Option (List Tok)
  | _, [] => some []
  | 0, _ :: _ => none
  | fuel + 1, c :: cs =>
      if c = ' ' then tokenize fuel cs
      else if c = '+' then (tokenize fuel cs).map (Tok.plus :: ·)
      else if c = '-' then (tokenize fuel cs).map (Tok.minus :: ·)
      else if c = '*' then (tokenize fuel cs).map (Tok.star :: ·)
      else if c = '/' then (tokenize fuel cs).map (Tok.slash :: ·)
      else if c = '(' then (tokenize fuel cs).map (Tok.lparen :: ·)
      else if c = ')' then (tokenize fuel cs).map (Tok.rparen :: ·)
      else if c.isDigit || c = '.' then
        let intPart := readDigits (c :: cs)
        match intPart.2 with
        | '.' :: r2 =>
            let fracPart := readDigits r2
            if intPart.1.isEmpty && fracPart.1.isEmpty then none
            else
              let scale := pow10 fracPart.1.length
              let q : Frac :=
                ⟨(natOfDigits intPart.1 : ℤ) * scale + (natOfDigits fracPart.1 : ℤ), scale⟩
              (tokenize fuel fracPart.2).map (Tok.num q :: ·)
        | r1 =>
            if intPart.1.isEmpty then none
            else (tokenize fuel r1).map (Tok.num ⟨(natOfDigits intPart.1 : ℤ), 1⟩ :: ·)
      else none

/-- Parser modes: `expr`/`term`/`factor` descend the precedence levels;
`exprL`/`termL` consume the left-associative operator chains with an
accumulator. -/
inductive PMode where
  | expr
  | term
  | factor
  | exprL (acc : Frac)
  | termL (acc : Frac)

/-- Precedence-climbing evaluator over the token list.  Division by
zero is an error (`ZeroDivisionError` in Python), as is any leftover
syntax problem. -/
def parseRun : ℕ → PMode → List Tok → Option (Frac × List Tok)
  | 0, _, _ => none
  | fuel + 1, PMode.expr, ts =>
      match parseRun fuel PMode.term ts with
      | some (v, r) => parseRun fuel (PMode.exprL v) r
      | none => none
  | fuel + 1, PMode.exprL acc, Tok.plus :: ts =>
      match parseRun fuel PMode.term ts with
      | some (v, r) => parseRun fuel (PMode.exprL (acc.add v)) r
      | none => none
  | fuel + 1, PMode.exprL acc, Tok.minus :: ts =>
      match parseRun fuel PMode.term ts with
      | some (v, r) => parseRun fuel (PMode.exprL (acc.sub v)) r
      | none => none
  | _ + 1, PMode.exprL acc, ts => some (acc, ts)
  | fuel + 1, PMode.term, ts =>
      match parseRun fuel PMode.factor ts with
      | some (v, r) => parseRun fuel (PMode.termL v) r
      | none => none
  | fuel + 1, PMode.termL acc, Tok.star :: ts =>
      match parseRun fuel PMode.factor ts with
      | some (v, r) => parseRun fuel (PMode.termL (acc.mul v)) r
      | none => none
  | fuel + 1, PMode.termL acc, Tok.slash :: ts =>
      match parseRun fuel PMode.factor ts with
      | some (v, r) => if v.num = 0 then none else parseRun fuel (PMode.termL (acc.div v)) r
      | none => none
  | _ + 1, PMode.termL acc, ts => some (acc, ts)
  | fuel + 1, PMode.factor, Tok.plus :: ts => parseRun fuel PMode.factor ts
  | fuel + 1, PMode.factor, Tok.minus :: ts =>
      (parseRun fuel PMode.factor ts).map (fun p => (p.1.neg, p.2))
  | _ + 1, PMode.factor, Tok.num q :: ts => some (q, ts)
  | fuel + 1, PMode.factor, Tok.lparen :: ts =>
      match parseRun fuel PMode.expr ts with
      | some (v, Tok.rparen :: r) => some (v, r)
      | _ => none
  | _ + 1, PMode.factor, _ => none

/-- Model of Python `eval` on an arithmetic-only string: `some` value on
success, `none` on any error.  The fuel amounts strictly dominate the
work of the tokenizer (one unit per character) and of the parser (at
most four mode descents per consumed token). -/
def evalArith (s : String) : Option ℚ :=
  match tokenize (s.data.length + 1) s.data with
  | none => none
  | some ts =>
      match parseRun (4 * ts.length + 8) PMode.expr ts with
      | some (v, []) => some v.toRat
      | _ => none

/-! ## Rule Engine — `EcoAI.handle_rule_based` -/

/-- The characters allowed to survive phrase-stripping
(src/local.py:198): `'0123456789+-*/(). '`. -/
def mathAllowedChars : List Char := "0123456789+-*/(). ".data

/-- The phrase-stripping pipeline of the arithmetic rule
(src/local.py:193-196): lowercase, delete every occurrence of
`"what is"`, `"calculate"`, `"="`, `"?"` in that order, then strip. -/
def strippedCalc (prompt : String) : String :=
  pyStrip (pyReplace (pyReplace (pyReplace (pyReplace (pyLower prompt)
    "what is" "") "calculate" "") "=" "") "?" "")

/-- The arithmetic rule (src/local.py:190-202): requires an operator
character somewhere in the raw prompt, then strips phrases and, only if
the remainder is non-empty and drawn from `mathAllowedChars`, evaluates
it; any evaluation error is `none`. -/
def handleMath (prompt : String) : Option ℚ :=
  if pyHasChar prompt '+' || pyHasChar prompt '-' ||
     pyHasChar prompt '*' || pyHasChar prompt '/' then
    let calcStr := strippedCalc prompt
    if (calcStr != "") && calcStr.data.all (fun c => decide (c ∈ mathAllowedChars)) then
      evalArith calcStr
    else none
  else none

/-- Rendering of the evaluated number into the reply text.  Python
prints the `eval` result with `str`; integers print without a
fractional part, which is the only case the claims exercise. -/
def pyNumToStr (q : ℚ) : String :=
  if q.den = 1 then q.num.repr else q.num.repr ++ "/" ++ q.den.repr

/-- The wall clock as the rule engine observes it: the two
`datetime.now().strftime(...)` renderings interpolated by the time and
date rules (src/local.py:184, 188). -/
structure Clock where
  timeStr : String
  dateStr : String
deriving DecidableEq

/-- The fixed greeting words (src/local.py:178). -/
def greetings : List String := ["hi", "hello", "hey", "sup", "howdy"]

/-- Model of `EcoAI.handle_rule_based` (src/local.py:173-204): greeting, time,
date and arithmetic rules in order; `none` when no rule matches. -/
def handle_rule_based (prompt : String) (clock : Clock) : Option String :=
  let prompt_lower := pyStrip (pyLower prompt)
  if greetings.any (fun w => (prompt_lower == w) || pyStartsWith prompt_lower (w ++ " ")) then
    some "Hello! How can I help you today! 🌱"
  else if containsSubstr prompt_lower "what time" || containsSubstr prompt_lower "current time" then
    some ("⏰ " ++ clock.timeStr)
  else if containsSubstr prompt_lower "what date" || containsSubstr prompt_lower "today" then
    some ("📅 " ++ clock.dateStr)
  else
    match handleMath prompt with
    | some q => some ("🧮 " ++ pyNumToStr q)
    | none => none

/-! ## Backends and Router -/

/-- The `AnswerResult` dictionary `answer_question` returns
(src/local.py:375-426): answer text, source tag, token count and CO₂
grams. -/
structure AnswerResult where
  answer : String
  source : String
  tokens : ℕ
  co2 : ℚ
deriving DecidableEq

/-- Outcome of one cloud HTTP call, at the point `cloud_inference`
inspects it: either a transport-level failure (timeout, request error,
non-200 status — every `except` branch before the body is parsed), or a
parsed JSON body whose `choices[0].message.content`,
`usage.total_tokens` and
`usage.completion_tokens_details.reasoning_tokens` fields may each be
absent (`none`). -/
inductive CloudResp where
  | failure
  | json (content : Option String) (totalTokens : Option ℕ) (reasoningTokens : Option ℕ)
deriving DecidableEq

/-- Model of `EcoAI.cloud_inference` (src/local.py:299-363): on a parsed body it
strips the answer, defaults missing `total_tokens` to the requested
`max_tokens` budget, accumulates the reported reasoning tokens into the
stats, and returns `(answer, tokens)`; a missing `content`
(`KeyError`) and every transport failure return `(None, 0)` without
touching the stats. -/
def cloud_inference (s : Stats) (resp : CloudResp) (max_tokens : ℕ) :
    (Option String × ℕ) × Stats :=
  match resp with
  | .failure => ((none, 0), s)
  | .json none _ _ => ((none, 0), s)
  | .json (some content) totalTokens reasoningTokens =>
      let answer := pyStrip content
      let tokens := totalTokens.getD max_tokens
      let reasoning_tokens := reasoningTokens.getD 0
      ((some answer, tokens),
       { s with reasoning_tokens_used := s.reasoning_tokens_used + reasoning_tokens })

/-- Model of `EcoAI.local_inference` (src/local.py:240-297), abstracted over the
opaque model: returns `None` when `use_local` is off, and otherwise the
backend's outcome (`none` models a missing model / generation error,
`some text` a generated reply). -/
def local_inference (use_local : Bool) (backend : Option String) : Option String :=
  if use_local then backend else none

/-- The external facts one `answer_question` call can observe: the wall
clock and what each backend would reply if invoked. -/
structure World where
  clock : Clock
  localResp : Option String
  cloudResp : CloudResp

/-- Instrumentation (not part of the Python state): which backends the
call reached.  `localCalled` is set when control reaches the
`local_inference` call (src/local.py:390), `cloudCalled` when it
reaches `cloud_inference` (src/local.py:405). -/
structure CallLog where
  localCalled : Bool
  cloudCalled : Bool
deriving DecidableEq

/-- The fixed apology result of the error path (src/local.py:421-426). -/
def errorResult : AnswerResult :=
  { answer := "Sorry, I couldn\x27t generate a response. Please check server logs for details.",
    source := "error", tokens := 0, co2 := 0 }

/-- Steps 4-5 of `answer_question` (src/local.py:403-426): invoke the
cloud backend with the default budget of 150 and either produce the
cloud answer or the apology. -/
def cloudStep (s : Stats) (w : World) (localCalled : Bool) :
    AnswerResult × Stats × CallLog :=
  match cloud_inference s w.cloudResp 150 with
  | ((some c, tokens), s2) =>
      if c = "" then (errorResult, s2, ⟨localCalled, true⟩)
      else
        ({ answer := "[Cloud AI 🌐] " ++ c, source := "cloud", tokens := tokens,
           co2 := (calculate_environmental_impact tokens).1 },
         update_stats s2 "cloud" tokens, ⟨localCalled, true⟩)
  | ((none, _), s2) => (errorResult, s2, ⟨localCalled, true⟩)

/-- Steps 2-5 of `answer_question` (src/local.py:382-426): classify,
maybe try the local backend, else fall through to the cloud. -/
def afterRule (use_local : Bool) (s : Stats) (prompt : String) (w : World) :
    AnswerResult × Stats × CallLog :=
  let complexity := categorize_complexity prompt
  let tryLocal := (complexity == "simple") && use_local
  let local_response := if tryLocal then local_inference use_local w.localResp else none
  match local_response with
  | some lr =>
      if lr = "" then cloudStep s w tryLocal
      else
        ({ answer := "[Local AI 🌱] " ++ lr, source := "local", tokens := 0, co2 := 0 },
         update_stats s "local" 0, ⟨tryLocal, false⟩)
  | none => cloudStep s w tryLocal

/-- Model of `EcoAI.answer_question` (src/local.py:365-426): the main routing
logic.  Besides the result dictionary it returns the updated stats and
the instrumentation log. -/
def answer_question (use_local : Bool) (s : Stats) (prompt : String) (w : World) :
    AnswerResult × Stats × CallLog :=
  match handle_rule_based prompt w.clock with
  | some r =>
      if r = "" then afterRule use_local s prompt w
      else
        ({ answer := r, source := "rule-based", tokens := 0, co2 := 0 },
         update_stats s "rule-based" 0, ⟨false, false⟩)
  | none => afterRule use_local s prompt w

/-- Run a sequence of queries against one shared `EcoAI` instance,
returning the final stats and the number of non-error answers. -/
def runAll (use_local : Bool) (s : Stats) (inputs : List (String × World)) : Stats × ℕ :=
  match inputs with
  | [] => (s, 0)
  | (p, w) :: rest =>
      let r := answer_question use_local s p w
      let t := runAll use_local r.2.1 rest
      (t.1, t.2 + (if r.1.source = "error" then 0 else 1))

/-! ## Derived notions used by the claims -/

/-- The sum of the three per-tier counters. -/
def counterSum (s : Stats) : ℕ :=
  s.rule_based_responses + s.local_responses + s.cloud_responses

/-- The reasoning-token accumulation `cloud_inference` performs as a
side effect when (and only when) the response body parses. -/
def cloudBump (s : Stats) (resp : CloudResp) : Stats :=
  match resp with
  | .json (some _) _ r => { s with reasoning_tokens_used := s.reasoning_tokens_used + r.getD 0 }
  | _ => s

/-- Predicate for "the cloud attempt produced no usable answer": transport failure,
unparsable body, or an answer that strips to the empty string. -/
def cloudFalsy : CloudResp → Bool
  | .failure => true
  | .json none _ _ => true
  | .json (some c) _ _ => pyStrip c == ""

/-- Field-wise ≤ on stats: no field decremented. -/
def statsLE (a b : Stats) : Prop :=
  a.rule_based_responses ≤ b.rule_based_responses ∧
  a.local_responses ≤ b.local_responses ∧
  a.cloud_responses ≤ b.cloud_responses ∧
  a.tokens_saved ≤ b.tokens_saved ∧
  a.co2_saved_grams ≤ b.co2_saved_grams ∧
  a.water_saved_ml ≤ b.water_saved_ml ∧
  a.total_tokens_used ≤ b.total_tokens_used ∧
  a.reasoning_tokens_used ≤ b.reasoning_tokens_used

/-- One call moves the three tier counters from `a` to `b` by bumping
exactly one of them by 1, or none at all. -/
def incrOne (a b : Stats) : Prop :=
  (b.rule_based_responses = a.rule_based_responses + 1 ∧
   b.local_responses = a.local_responses ∧
   b.cloud_responses = a.cloud_responses) ∨
  (b.rule_based_responses = a.rule_based_responses ∧
   b.local_responses = a.local_responses + 1 ∧
   b.cloud_responses = a.cloud_responses) ∨
  (b.rule_based_responses = a.rule_based_responses ∧
   b.local_responses = a.local_responses ∧
   b.cloud_responses = a.cloud_responses + 1) ∨
  (b.rule_based_responses = a.rule_based_responses ∧
   b.local_responses = a.local_responses ∧
   b.cloud_responses = a.cloud_responses)

/-! ## Helper lemmas -/

/-- Computation law of `update_stats` with the `'rule-based'` tag. -/
lemma update_stats_rule (s : Stats) (t : ℕ) :
    update_stats s "rule-based" t =
      { s with rule_based_responses := s.rule_based_responses + 1,
               tokens_saved := s.tokens_saved + 50,
               co2_saved_grams := s.co2_saved_grams + (calculate_environmental_impact 50).1,
               water_saved_ml := s.water_saved_ml + (calculate_environmental_impact 50).2 } := rfl

/-- Computation law of `update_stats` with the `'local'` tag. -/
lemma update_stats_local (s : Stats) (t : ℕ) :
    update_stats s "local" t =
      { s with local_responses := s.local_responses + 1,
               tokens_saved := s.tokens_saved + 100,
               co2_saved_grams := s.co2_saved_grams + (calculate_environmental_impact 100).1,
               water_saved_ml := s.water_saved_ml + (calculate_environmental_impact 100).2 } := rfl

/-- Computation law of `update_stats` with the `'cloud'` tag. -/
lemma update_stats_cloud (s : Stats) (t : ℕ) :
    update_stats s "cloud" t =
      { s with cloud_responses := s.cloud_responses + 1,
               total_tokens_used := s.total_tokens_used + t } := rfl

/-- Appending to a nonempty string is nonempty. -/
lemma append_ne_empty_left (a b : String) (ha : a.data ≠ []) : a ++ b ≠ "" := by
  intro h
  apply ha
  have hd : a.data ++ b.data = [] := congrArg String.data h
  exact (List.append_eq_nil.mp hd).1

/-- Every answer the rule engine produces is a nonempty string, so it
passes the router's Python truthiness test. -/
lemma handle_rule_based_ne_empty (p : String) (c : Clock) (s : String)
    (h : handle_rule_based p c = some s) : s ≠ "" := by
  simp only [handle_rule_based] at h
  split_ifs at h
  · cases h; decide
  · cases h; exact append_ne_empty_left _ _ (by decide)
  · cases h; exact append_ne_empty_left _ _ (by decide)
  · revert h
    cases handleMath p with
    | none => intro h; cases h
    | some q => intro h; cases h; exact append_ne_empty_left _ _ (by decide)

/-- Membership of `"design a system"` in the keyword scan. -/
lemma any_keyword_design (p : String) (hd : containsSubstr (pyLower p) "design a system" = true) :
    very_complex_keywords.any (fun k => containsSubstr (pyLower p) k) = true :=
  List.any_eq_true.mpr ⟨"design a system", by decide, hd⟩

/-- When the rule engine answers, the router returns that answer with
the rule stats update and touches no backend. -/
lemma answer_question_of_rule (u : Bool) (s : Stats) (p : String) (w : World) (ans : String)
    (h : handle_rule_based p w.clock = some ans) :
    answer_question u s p w =
      ({ answer := ans, source := "rule-based", tokens := 0, co2 := 0 },
       update_stats s "rule-based" 0, ⟨false, false⟩) := by
  have hne := handle_rule_based_ne_empty p w.clock ans h
  simp [answer_question, h, hne]

/-- When the rule tier declines (no match, or an answer that is falsy),
the router continues with steps 2-5. -/
lemma answer_question_of_rule_falsy (u : Bool) (s : Stats) (p : String) (w : World)
    (h : pyTruthy (handle_rule_based p w.clock) = false) :
    answer_question u s p w = afterRule u s p w := by
  unfold answer_question
  cases hh : handle_rule_based p w.clock with
  | none => rfl
  | some r =>
      have hr : r = "" := by
        have h2 := h
        rw [hh] at h2
        simpa [pyTruthy] using h2
      simp [hr]

/-- When the local tier yields nothing truthy (skipped, failed, or an
empty reply), control falls through to the cloud step. -/
lemma afterRule_of_local_falsy (u : Bool) (s : Stats) (p : String) (w : World)
    (h : pyTruthy (if (categorize_complexity p == "simple") && u then
            local_inference u w.localResp else none) = false) :
    afterRule u s p w = cloudStep s w ((categorize_complexity p == "simple") && u) := by
  simp only [afterRule]
  cases hh : (if (categorize_complexity p == "simple") && u then
      local_inference u w.localResp else none) with
  | none => rfl
  | some lr =>
      have hr : lr = "" := by
        have h2 := h
        rw [hh] at h2
        simpa [pyTruthy] using h2
      simp [hr]

/-- When the local tier yields a truthy reply, the router returns the
local result. -/
lemma afterRule_of_local_answer (u : Bool) (s : Stats) (p : String) (w : World) (lr : String)
    (hh : (if (categorize_complexity p == "simple") && u then
            local_inference u w.localResp else none) = some lr)
    (hne : lr ≠ "") :
    afterRule u s p w =
      ({ answer := "[Local AI 🌱] " ++ lr, source := "local", tokens := 0, co2 := 0 },
       update_stats s "local" 0, ⟨(categorize_complexity p == "simple") && u, false⟩) := by
  simp only [afterRule]
  rw [hh]
  simp [hne]

/-- When the cloud attempt produces no usable answer, the cloud step
yields the apology, with only the reasoning-token bump applied. -/
lemma cloudStep_falsy (s : Stats) (w : World) (lc : Bool) (h : cloudFalsy w.cloudResp = true) :
    cloudStep s w lc = (errorResult, cloudBump s w.cloudResp, ⟨lc, true⟩) := by
  rcases w with ⟨clk, lres, cres⟩
  cases cres with
  | failure => rfl
  | json content tt rr =>
      cases content with
      | none => rfl
      | some c =>
          have hc : pyStrip c = "" := by simpa [cloudFalsy] using h
          simp [cloudStep, cloud_inference, cloudBump, hc]

/-- When the cloud body parses to a truthy answer, the cloud step
returns the cloud result with the default-or-reported token count. -/
lemma cloudStep_success (s : Stats) (w : World) (lc : Bool) (c : String)
    (tt rr : Option ℕ) (hw : w.cloudResp = .json (some c) tt rr) (hc : pyStrip c ≠ "") :
    cloudStep s w lc =
      ({ answer := "[Cloud AI 🌐] " ++ pyStrip c, source := "cloud", tokens := tt.getD 150,
         co2 := (calculate_environmental_impact (tt.getD 150)).1 },
       update_stats (cloudBump s w.cloudResp) "cloud" (tt.getD 150), ⟨lc, true⟩) := by
  simp [cloudStep, cloud_inference, hw, hc, cloudBump]

/-- The cloud step ends in exactly one of two shapes: a counted cloud
answer or the uncounted error result. -/
lemma cloudStep_shape (s : Stats) (w : World) (lc : Bool) :
    (∃ t, (cloudStep s w lc).1.source = "cloud" ∧
          (cloudStep s w lc).2.1 = update_stats (cloudBump s w.cloudResp) "cloud" t) ∨
    ((cloudStep s w lc).1.source = "error" ∧ (cloudStep s w lc).2.1 = cloudBump s w.cloudResp) := by
  rcases hw : w.cloudResp with _ | ⟨content, tt, rr⟩
  · right
    rw [cloudStep_falsy s w lc (by simp [cloudFalsy, hw])]
    exact ⟨rfl, by rw [hw]⟩
  · cases content with
    | none =>
        right
        rw [cloudStep_falsy s w lc (by simp [cloudFalsy, hw])]
        exact ⟨rfl, by rw [hw]⟩
    | some c =>
        by_cases hc : pyStrip c = ""
        · right
          rw [cloudStep_falsy s w lc (by simp [cloudFalsy, hw, hc])]
          exact ⟨rfl, by rw [hw]⟩
        · left
          refine ⟨tt.getD 150, ?_⟩
          rw [cloudStep_success s w lc c tt rr hw hc]
          exact ⟨rfl, by rw [hw]⟩

/-- Steps 2-5 end in one of three shapes: local, cloud, or error. -/
lemma afterRule_shape (u : Bool) (s : Stats) (p : String) (w : World) :
    ((afterRule u s p w).1.source = "local" ∧ (afterRule u s p w).2.1 = update_stats s "local" 0) ∨
    (∃ t, (afterRule u s p w).1.source = "cloud" ∧
          (afterRule u s p w).2.1 = update_stats (cloudBump s w.cloudResp) "cloud" t) ∨
    ((afterRule u s p w).1.source = "error" ∧ (afterRule u s p w).2.1 = cloudBump s w.cloudResp) := by
  cases hh : (if (categorize_complexity p == "simple") && u then
      local_inference u w.localResp else none) with
  | none =>
      rw [afterRule_of_local_falsy u s p w (by rw [hh]; rfl)]
      exact Or.inr (cloudStep_shape s w _)
  | some lr =>
      by_cases hne : lr = ""
      · rw [afterRule_of_local_falsy u s p w (by rw [hh]; simp [pyTruthy, hne])]
        exact Or.inr (cloudStep_shape s w _)
      · rw [afterRule_of_local_answer u s p w lr hh hne]
        exact Or.inl ⟨rfl, rfl⟩

/-- Every call ends in exactly one of four shapes, determining both the
source tag and the stats transition. -/
lemma answer_question_shape (u : Bool) (s : Stats) (p : String) (w : World) :
    ((answer_question u s p w).1.source = "rule-based" ∧
     (answer_question u s p w).2.1 = update_stats s "rule-based" 0) ∨
    ((answer_question u s p w).1.source = "local" ∧
     (answer_question u s p w).2.1 = update_stats s "local" 0) ∨
    (∃ t, (answer_question u s p w).1.source = "cloud" ∧
          (answer_question u s p w).2.1 = update_stats (cloudBump s w.cloudResp) "cloud" t) ∨
    ((answer_question u s p w).1.source = "error" ∧
     (answer_question u s p w).2.1 = cloudBump s w.cloudResp) := by
  cases hh : handle_rule_based p w.clock with
  | none =>
      rw [answer_question_of_rule_falsy u s p w (by rw [hh]; rfl)]
      exact Or.inr (afterRule_shape u s p w)
  | some r =>
      have hne := handle_rule_based_ne_empty p w.clock r hh
      rw [answer_question_of_rule u s p w r hh]
      exact Or.inl ⟨rfl, rfl⟩

/-- Reflexivity of the field-wise stats order. -/
lemma statsLE_refl (s : Stats) : statsLE s s := by
  unfold statsLE
  refine ⟨le_refl _, le_refl _, le_refl _, le_refl _, le_refl _, le_refl _, le_refl _, le_refl _⟩

/-- The rule-tier stats update decrements nothing. -/
lemma statsLE_update_rule (s : Stats) (t : ℕ) : statsLE s (update_stats s "rule-based" t) := by
  rw [update_stats_rule]
  unfold statsLE
  dsimp only
  refine ⟨by omega, le_refl _, le_refl _, by omega, ?_, ?_, le_refl _, le_refl _⟩ <;>
    simp [calculate_environmental_impact] <;> norm_num

/-- The local-tier stats update decrements nothing. -/
lemma statsLE_update_local (s : Stats) (t : ℕ) : statsLE s (update_stats s "local" t) := by
  rw [update_stats_local]
  unfold statsLE
  dsimp only
  refine ⟨le_refl _, by omega, le_refl _, by omega, ?_, ?_, le_refl _, le_refl _⟩ <;>
    simp [calculate_environmental_impact] <;> norm_num

/-- The cloud-tier stats update decrements nothing. -/
lemma statsLE_update_cloud (s : Stats) (t : ℕ) : statsLE s (update_stats s "cloud" t) := by
  rw [update_stats_cloud]
  unfold statsLE
  dsimp only
  refine ⟨le_refl _, le_refl _, by omega, le_refl _, le_refl _, le_refl _, by omega, le_refl _⟩

/-- The reasoning-token bump decrements nothing. -/
lemma statsLE_cloudBump (s : Stats) (resp : CloudResp) : statsLE s (cloudBump s resp) := by
  cases resp with
  | failure => exact statsLE_refl s
  | json content tt rr =>
      cases content with
      | none => exact statsLE_refl s
      | some c =>
          unfold statsLE cloudBump
          dsimp only
          refine ⟨le_refl _, le_refl _, le_refl _, le_refl _, le_refl _, le_refl _, le_refl _,
            by omega⟩

/-- Transitivity of the field-wise stats order. -/
lemma statsLE_trans (a b c : Stats) (h1 : statsLE a b) (h2 : statsLE b c) : statsLE a c := by
  unfold statsLE at *
  exact ⟨le_trans h1.1 h2.1, le_trans h1.2.1 h2.2.1, le_trans h1.2.2.1 h2.2.2.1,
         le_trans h1.2.2.2.1 h2.2.2.2.1, le_trans h1.2.2.2.2.1 h2.2.2.2.2.1,
         le_trans h1.2.2.2.2.2.1 h2.2.2.2.2.2.1, le_trans h1.2.2.2.2.2.2.1 h2.2.2.2.2.2.2.1,
         le_trans h1.2.2.2.2.2.2.2 h2.2.2.2.2.2.2.2⟩

/-- The rule update adds one to the counter sum. -/
lemma counterSum_update_rule (s : Stats) (t : ℕ) :
    counterSum (update_stats s "rule-based" t) = counterSum s + 1 := by
  rw [update_stats_rule]; unfold counterSum; dsimp only; omega

/-- The local update adds one to the counter sum. -/
lemma counterSum_update_local (s : Stats) (t : ℕ) :
    counterSum (update_stats s "local" t) = counterSum s + 1 := by
  rw [update_stats_local]; unfold counterSum; dsimp only; omega

/-- The cloud update adds one to the counter sum. -/
lemma counterSum_update_cloud (s : Stats) (t : ℕ) :
    counterSum (update_stats s "cloud" t) = counterSum s + 1 := by
  rw [update_stats_cloud]; unfold counterSum; dsimp only; omega

/-- The reasoning-token bump leaves the counter sum unchanged. -/
lemma counterSum_cloudBump (s : Stats) (resp : CloudResp) :
    counterSum (cloudBump s resp) = counterSum s := by
  cases resp with
  | failure => rfl
  | json content tt rr => cases content <;> rfl

/-- The reasoning-token bump leaves all the counters unchanged. -/
lemma cloudBump_counters (s : Stats) (resp : CloudResp) :
    (cloudBump s resp).rule_based_responses = s.rule_based_responses ∧
    (cloudBump s resp).local_responses = s.local_responses ∧
    (cloudBump s resp).cloud_responses = s.cloud_responses ∧
    (cloudBump s resp).total_tokens_used = s.total_tokens_used := by
  cases resp with
  | failure => exact ⟨rfl, rfl, rfl, rfl⟩
  | json content tt rr => cases content <;> exact ⟨rfl, rfl, rfl, rfl⟩

/-- The rule update bumps exactly the rule counter. -/
lemma incrOne_update_rule (s : Stats) (t : ℕ) : incrOne s (update_stats s "rule-based" t) := by
  left
  rw [update_stats_rule]
  exact ⟨rfl, rfl, rfl⟩

/-- The local update bumps exactly the local counter. -/
lemma incrOne_update_local (s : Stats) (t : ℕ) : incrOne s (update_stats s "local" t) := by
  right; left
  rw [update_stats_local]
  exact ⟨rfl, rfl, rfl⟩

/-- The cloud path bumps exactly the cloud counter. -/
lemma incrOne_cloud (s : Stats) (resp : CloudResp) (t : ℕ) :
    incrOne s (update_stats (cloudBump s resp) "cloud" t) := by
  right; right; left
  rw [update_stats_cloud]
  obtain ⟨h1, h2, h3, _⟩ := cloudBump_counters s resp
  exact ⟨h1, h2, by dsimp; rw [h3]⟩

/-- The error path bumps no counter. -/
lemma incrOne_bump (s : Stats) (resp : CloudResp) : incrOne s (cloudBump s resp) := by
  right; right; right
  obtain ⟨h1, h2, h3, _⟩ := cloudBump_counters s resp
  exact ⟨h1, h2, h3⟩

/-- Running a batch of queries raises the counter sum by exactly the
number of non-error answers. -/
lemma runAll_counterSum (u : Bool) (inputs : List (String × World)) :
    ∀ s : Stats, counterSum (runAll u s inputs).1 = counterSum s + (runAll u s inputs).2 := by
  induction inputs with
  | nil => intro s; simp [runAll]
  | cons pw rest ih =>
      intro s
      obtain ⟨p, w⟩ := pw
      simp only [runAll]
      rw [ih]
      rcases answer_question_shape u s p w with ⟨hs, hst⟩ | ⟨hs, hst⟩ | ⟨t, hs, hst⟩ | ⟨hs, hst⟩ <;>
        rw [hs, hst]
      · rw [counterSum_update_rule]; simp; omega
      · rw [counterSum_update_local]; simp; omega
      · rw [counterSum_update_cloud, counterSum_cloudBump]; simp; omega
      · rw [counterSum_cloudBump]; simp

/-! ## Claim theorems -/

/-- C1: for every prompt for which the rule engine returns an answer,
`answer_question` returns exactly that answer text with source
`rule-based`, zero tokens and zero CO₂, records the rule outcome in the
stats, and invokes neither the local nor the cloud backend. -/
theorem rule_tier_shortcircuits (u : Bool) (s : Stats) (p : String) (w : World) (ans : String)
    (h : handle_rule_based p w.clock = some ans) :
    answer_question u s p w =
      ({ answer := ans, source := "rule-based", tokens := 0, co2 := 0 },
       update_stats s "rule-based" 0, ⟨false, false⟩) :=
  answer_question_of_rule u s p w ans h

/-- Witness for C1: the prompt `"hi"` takes the rule path. -/
theorem rule_tier_shortcircuits_witness :
    answer_question true freshStats "hi" ⟨⟨"01:00 PM", "Monday"⟩, none, CloudResp.failure⟩ =
      ({ answer := "Hello! How can I help you today! 🌱", source := "rule-based",
         tokens := 0, co2 := 0 },
       update_stats freshStats "rule-based" 0, ⟨false, false⟩) :=
  rule_tier_shortcircuits true freshStats "hi" ⟨⟨"01:00 PM", "Monday"⟩, none, CloudResp.failure⟩
    "Hello! How can I help you today! 🌱" (by decide)

/-- C2: starting from a fresh `Stats`, after any sequence of
`answer_question` calls the sum of the three tier counters equals the
number of calls whose result had a source other than `error`; moreover
each single call bumps at most one of the counters by exactly 1 (the one
matching its non-error source, and none on the error path) and never
decrements any stats field. -/
theorem stats_counter_invariant :
    (∀ (use_local : Bool) (inputs : List (String × World)),
        counterSum (runAll use_local freshStats inputs).1 = (runAll use_local freshStats inputs).2) ∧
    (∀ (u : Bool) (s : Stats) (p : String) (w : World),
        ((answer_question u s p w).1.source ≠ "error" →
          counterSum (answer_question u s p w).2.1 = counterSum s + 1) ∧
        ((answer_question u s p w).1.source = "error" →
          counterSum (answer_question u s p w).2.1 = counterSum s) ∧
        incrOne s (answer_question u s p w).2.1 ∧
        statsLE s (answer_question u s p w).2.1) := by
  constructor
  · intro u inputs
    have h := runAll_counterSum u inputs freshStats
    simpa [freshStats, counterSum] using h
  · intro u s p w
    rcases answer_question_shape u s p w with ⟨hs, hst⟩ | ⟨hs, hst⟩ | ⟨t, hs, hst⟩ | ⟨hs, hst⟩
    · exact ⟨fun _ => by rw [hst, counterSum_update_rule],
             fun he => absurd (hs.symm.trans he) (by decide),
             hst ▸ incrOne_update_rule s 0, hst ▸ statsLE_update_rule s 0⟩
    · exact ⟨fun _ => by rw [hst, counterSum_update_local],
             fun he => absurd (hs.symm.trans he) (by decide),
             hst ▸ incrOne_update_local s 0, hst ▸ statsLE_update_local s 0⟩
    · exact ⟨fun _ => by rw [hst, counterSum_update_cloud, counterSum_cloudBump],
             fun he => absurd (hs.symm.trans he) (by decide),
             hst ▸ incrOne_cloud s w.cloudResp t,
             hst ▸ statsLE_trans s (cloudBump s w.cloudResp) _
               (statsLE_cloudBump s w.cloudResp) (statsLE_update_cloud _ t)⟩
    · exact ⟨fun hne => absurd hs hne,
             fun _ => by rw [hst, counterSum_cloudBump],
             hst ▸ incrOne_bump s w.cloudResp, hst ▸ statsLE_cloudBump s w.cloudResp⟩

/-- Witness for C2: a rule-based call bumps the counter sum by one, a
fully failing call leaves it unchanged. -/
theorem stats_counter_invariant_witness :
    counterSum (answer_question true freshStats "hi"
        ⟨⟨"01:00 PM", "Monday"⟩, none, CloudResp.failure⟩).2.1 = counterSum freshStats + 1 ∧
    counterSum (answer_question true freshStats "zzz qqq"
        ⟨⟨"01:00 PM", "Monday"⟩, none, CloudResp.failure⟩).2.1 = counterSum freshStats :=
  ⟨(stats_counter_invariant.2 true freshStats "hi"
      ⟨⟨"01:00 PM", "Monday"⟩, none, CloudResp.failure⟩).1 (by decide),
   (stats_counter_invariant.2 true freshStats "zzz qqq"
      ⟨⟨"01:00 PM", "Monday"⟩, none, CloudResp.failure⟩).2.1 (by decide)⟩

/-- C3: `categorize_complexity` returns `"complex"` exactly when the
whitespace-split word count exceeds 40 or the lowercased prompt contains
one of the ten fixed very-complex phrases, and `"simple"` otherwise; in
particular every prompt of more than 40 words is complex regardless of
keywords, and every prompt containing `"design a system"` is complex
even if short. -/
theorem classify_complex_iff : ∀ p : String,
    (categorize_complexity p = "complex" ↔
      ((pySplitWs p).length > 40 ∨
        very_complex_keywords.any (fun k => containsSubstr (pyLower p) k) = true)) ∧
    (categorize_complexity p = "simple" ↔
      ¬((pySplitWs p).length > 40 ∨
        very_complex_keywords.any (fun k => containsSubstr (pyLower p) k) = true)) ∧
    ((pySplitWs p).length > 40 → categorize_complexity p = "complex") ∧
    (containsSubstr (pyLower p) "design a system" = true → categorize_complexity p = "complex") := by
  intro p
  by_cases h1 : (pySplitWs p).length > 40
  · simp [categorize_complexity, h1]
  · by_cases h2 : very_complex_keywords.any (fun k => containsSubstr (pyLower p) k) = true
    · refine ⟨?_, ?_, ?_, ?_⟩ <;> simp [categorize_complexity, h1, h2]
    · refine ⟨?_, ?_, ?_, ?_⟩
      · simp [categorize_complexity, h1, h2]
      · simp [categorize_complexity, h1, h2]
      · intro h; exact absurd h h1
      · intro hd; exact absurd (any_keyword_design p hd) h2

/-- Witness for C3: a 41-word prompt is complex, and so is the short
prompt `"design a system"`. -/
theorem classify_complex_iff_witness :
    categorize_complexity
      "a a a a a a a a a a a a a a a a a a a a a a a a a a a a a a a a a a a a a a a a a" =
      "complex" ∧
    categorize_complexity "design a system" = "complex" :=
  ⟨(classify_complex_iff
      "a a a a a a a a a a a a a a a a a a a a a a a a a a a a a a a a a a a a a a a a a").2.2.1
      (by decide),
   (classify_complex_iff "design a system").2.2.2 (by decide)⟩

/-- Counterexample to C4 as stated: when the rule tier declines, the
local attempt fails, and the cloud body parses to an empty answer while
reporting 5 reasoning tokens, the call returns the error result yet the
stats are NOT unchanged (`reasoning_tokens_used` grows by 5). -/
theorem error_path_stats_counterexample :
    (answer_question true freshStats "zzz qqq"
        ⟨⟨"01:00 PM", "Monday"⟩, none, CloudResp.json (some "") none (some 5)⟩).1 = errorResult ∧
    (answer_question true freshStats "zzz qqq"
        ⟨⟨"01:00 PM", "Monday"⟩, none, CloudResp.json (some "") none (some 5)⟩).2.1 ≠ freshStats := by
  constructor
  · decide
  · decide

/-- C4 amended: when the rule tier declines and both the local and the
cloud attempt fail, the call returns the fixed apology
`AnswerResult` with source `error`, zero tokens and zero CO₂, and the
stats are unchanged EXCEPT that `reasoning_tokens_used` still absorbs
the reasoning tokens reported by a cloud body that parsed with an empty
answer (`cloudBump`); no counter and no other field moves. -/
theorem error_path_returns_apology (u : Bool) (s : Stats) (p : String) (w : World)
    (hr : pyTruthy (handle_rule_based p w.clock) = false)
    (hl : pyTruthy (if (categorize_complexity p == "simple") && u then
            local_inference u w.localResp else none) = false)
    (hc : cloudFalsy w.cloudResp = true) :
    answer_question u s p w =
      (errorResult, cloudBump s w.cloudResp,
       ⟨(categorize_complexity p == "simple") && u, true⟩) := by
  rw [answer_question_of_rule_falsy u s p w hr, afterRule_of_local_falsy u s p w hl,
      cloudStep_falsy s w _ hc]

/-- Witness for the amended C4: with a transport-level cloud failure the
stats come back exactly unchanged. -/
theorem error_path_returns_apology_witness :
    answer_question true freshStats "zzz qqq" ⟨⟨"01:00 PM", "Monday"⟩, none, CloudResp.failure⟩ =
      (errorResult, freshStats, ⟨true, true⟩) :=
  error_path_returns_apology true freshStats "zzz qqq"
    ⟨⟨"01:00 PM", "Monday"⟩, none, CloudResp.failure⟩ (by decide) (by decide) (by decide)

/-- C5: `update_stats` with kind `rule-based` bumps the rule counter by
1, adds exactly 50 to `tokens_saved` and credits `estimate(50)` to the
saved CO₂/water totals; with kind `local` it bumps the local counter,
adds 100 and credits `estimate(100)`; with kind `cloud` and actual token
count `t` it bumps the cloud counter and adds `t` to
`total_tokens_used` crediting no savings.  The record equalities pin
every other field to its old value. -/
theorem record_outcome_spec : ∀ (s : Stats) (t : ℕ),
    update_stats s "rule-based" t =
      { s with rule_based_responses := s.rule_based_responses + 1,
               tokens_saved := s.tokens_saved + 50,
               co2_saved_grams := s.co2_saved_grams + (calculate_environmental_impact 50).1,
               water_saved_ml := s.water_saved_ml + (calculate_environmental_impact 50).2 } ∧
    update_stats s "local" t =
      { s with local_responses := s.local_responses + 1,
               tokens_saved := s.tokens_saved + 100,
               co2_saved_grams := s.co2_saved_grams + (calculate_environmental_impact 100).1,
               water_saved_ml := s.water_saved_ml + (calculate_environmental_impact 100).2 } ∧
    update_stats s "cloud" t =
      { s with cloud_responses := s.cloud_responses + 1,
               total_tokens_used := s.total_tokens_used + t } :=
  fun s t => ⟨update_stats_rule s t, update_stats_local s t, update_stats_cloud s t⟩

/-- C6: for every token count the impact estimator returns exactly
`(tokens * 0.002, 25.0)` — the water figure independent of the input —
and it is a pure function, returning identical output on repeated
calls. -/
theorem estimate_spec : ∀ tokens : ℕ,
    calculate_environmental_impact tokens = ((tokens : ℚ) * 0.002, 25.0) ∧
    calculate_environmental_impact tokens = calculate_environmental_impact tokens :=
  fun _ => ⟨rfl, rfl⟩

/-- C7: the arithmetic rule evaluates the prompt `"what is 2+2"` to the
numeric result 4 (and the rule engine answers `"🧮 4"` at any clock);
whenever the post-stripping remainder contains a character outside
digits, the four operators, parentheses, dot and space, the arithmetic
rule declines with `none`; and any evaluation error likewise yields
`none` — the evaluation being a total function, no error ever
propagates. -/
theorem arithmetic_rule_spec :
    handleMath "what is 2+2" = some 4 ∧
    (∀ c : Clock, handle_rule_based "what is 2+2" c = some "🧮 4") ∧
    (∀ p : String, (∃ ch ∈ (strippedCalc p).data, ch ∉ mathAllowedChars) → handleMath p = none) ∧
    (∀ p : String, evalArith (strippedCalc p) = none → handleMath p = none) := by
  refine ⟨by decide, fun _ => rfl, ?_, ?_⟩
  · rintro p ⟨ch, hmem, hch⟩
    have hall : (strippedCalc p).data.all (fun c => decide (c ∈ mathAllowedChars)) = false := by
      rw [List.all_eq_false]
      exact ⟨ch, hmem, by simpa using hch⟩
    simp only [handleMath, hall]
    split_ifs <;> simp_all
  · intro p h
    simp only [handleMath]
    split_ifs <;> simp_all

/-- Witness for C7: a disallowed character (`x`) and a syntax error
(`2++`) both make the arithmetic rule decline. -/
theorem arithmetic_rule_spec_witness :
    handleMath "what is x+y" = none ∧ handleMath "what is 2++" = none :=
  ⟨arithmetic_rule_spec.2.2.1 "what is x+y" ⟨'x', by decide, by decide⟩,
   arithmetic_rule_spec.2.2.2 "what is 2++" (by decide)⟩

/-- Counterexample to C8 as stated: the rule engine's reply to
`"what time is it"` differs between two calls made at different
wall-clock times, so two calls with the same prompt do not always
return the same result. -/
theorem rule_engine_clock_counterexample :
    handle_rule_based "what time is it" ⟨"01:00 PM", "Monday"⟩ ≠
      handle_rule_based "what time is it" ⟨"02:00 PM", "Monday"⟩ := by
  decide

/-- C8 amended: the rule engine mutates no state (it is a function of
the prompt and the current wall clock only), and for every prompt that
does not trigger the time or date rules two calls with the same prompt
string return the same result whatever the clock. -/
theorem rule_engine_deterministic_given_clock (p : String) (c1 c2 : Clock)
    (ht : (containsSubstr (pyStrip (pyLower p)) "what time" ||
           containsSubstr (pyStrip (pyLower p)) "current time") = false)
    (hd : (containsSubstr (pyStrip (pyLower p)) "what date" ||
           containsSubstr (pyStrip (pyLower p)) "today") = false) :
    handle_rule_based p c1 = handle_rule_based p c2 := by
  simp only [handle_rule_based, ht, hd]
  split_ifs <;> first | rfl | contradiction

/-- Witness for the amended C8: the greeting prompt `"hi"` gets the
same reply at two different clocks. -/
theorem rule_engine_deterministic_given_clock_witness :
    handle_rule_based "hi" ⟨"01:00 PM", "Monday"⟩ = handle_rule_based "hi" ⟨"02:00 PM", "Tuesday"⟩ :=
  rule_engine_deterministic_given_clock "hi" ⟨"01:00 PM", "Monday"⟩ ⟨"02:00 PM", "Tuesday"⟩
    (by decide) (by decide)

/-- C9: whenever the cloud backend's response parses and reports
reasoning-token usage `rv`, that amount is added to
`reasoning_tokens_used` — regardless of the outcome of the query,
including when the answer text is empty and the final result is the
error outcome rather than a cloud-sourced answer. -/
theorem reasoning_tokens_accumulate (u : Bool) (s : Stats) (p : String) (w : World)
    (c : String) (tt : Option ℕ) (rv : ℕ)
    (hr : pyTruthy (handle_rule_based p w.clock) = false)
    (hl : pyTruthy (if (categorize_complexity p == "simple") && u then
            local_inference u w.localResp else none) = false)
    (hw : w.cloudResp = CloudResp.json (some c) tt (some rv)) :
    (answer_question u s p w).2.1.reasoning_tokens_used = s.reasoning_tokens_used + rv := by
  rw [answer_question_of_rule_falsy u s p w hr, afterRule_of_local_falsy u s p w hl]
  by_cases hc : pyStrip c = ""
  · rw [cloudStep_falsy s w _ (by simp [cloudFalsy, hw, hc])]
    simp [cloudBump, hw]
  · rw [cloudStep_success s w _ c tt (some rv) hw hc]
    dsimp
    rw [update_stats_cloud]
    simp [cloudBump, hw]

/-- Witness for C9: an empty cloud answer reporting 7 reasoning tokens
still adds 7 even though the query ends on the error path. -/
theorem reasoning_tokens_accumulate_witness :
    (answer_question true freshStats "zzz qqq"
        ⟨⟨"01:00 PM", "Monday"⟩, none,
          CloudResp.json (some "") none (some 7)⟩).2.1.reasoning_tokens_used =
      freshStats.reasoning_tokens_used + 7 :=
  reasoning_tokens_accumulate true freshStats "zzz qqq"
    ⟨⟨"01:00 PM", "Monday"⟩, none, CloudResp.json (some "") none (some 7)⟩ "" none 7
    (by decide) (by decide) rfl

/-- C10: when a cloud response parses but its usage object lacks
`total_tokens`, `cloud_inference` reports exactly the requested budget
`max_tokens`; through the router (which passes the default budget 150)
the result's token count is 150, its CO₂ figure is `estimate(150)`, and
`total_tokens_used` grows by 150 — the budget, not zero and not actual
usage. -/
theorem missing_total_tokens_defaults_to_budget :
    (∀ (s : Stats) (c : String) (r : Option ℕ) (m : ℕ),
        cloud_inference s (CloudResp.json (some c) none r) m =
          ((some (pyStrip c), m),
           { s with reasoning_tokens_used := s.reasoning_tokens_used + r.getD 0 })) ∧
    (∀ (u : Bool) (s : Stats) (p : String) (w : World) (c : String) (r : Option ℕ),
        pyTruthy (handle_rule_based p w.clock) = false →
        pyTruthy (if (categorize_complexity p == "simple") && u then
            local_inference u w.localResp else none) = false →
        w.cloudResp = CloudResp.json (some c) none r →
        pyStrip c ≠ "" →
        (answer_question u s p w).1.tokens = 150 ∧
        (answer_question u s p w).1.co2 = (calculate_environmental_impact 150).1 ∧
        (answer_question u s p w).2.1.total_tokens_used = s.total_tokens_used + 150) := by
  constructor
  · intro s c r m; rfl
  · intro u s p w c r hr hl hw hc
    rw [answer_question_of_rule_falsy u s p w hr, afterRule_of_local_falsy u s p w hl,
        cloudStep_success s w _ c none r hw hc]
    refine ⟨rfl, rfl, ?_⟩
    dsimp
    rw [update_stats_cloud]
    simp [cloudBump, hw]

/-- Witness for C10: a parsed body with answer `"ok"` and no
`total_tokens` yields 150 tokens, `estimate(150)` CO₂ and a 150-token
usage charge. -/
theorem missing_total_tokens_defaults_to_budget_witness :
    (answer_question true freshStats "zzz qqq"
        ⟨⟨"01:00 PM", "Monday"⟩, none, CloudResp.json (some "ok") none none⟩).1.tokens = 150 ∧
    (answer_question true freshStats "zzz qqq"
        ⟨⟨"01:00 PM", "Monday"⟩, none, CloudResp.json (some "ok") none none⟩).1.co2 =
      (calculate_environmental_impact 150).1 ∧
    (answer_question true freshStats "zzz qqq"
        ⟨⟨"01:00 PM", "Monday"⟩, none,
          CloudResp.json (some "ok") none none⟩).2.1.total_tokens_used =
      freshStats.total_tokens_used + 150 :=
  missing_total_tokens_defaults_to_budget.2 true freshStats "zzz qqq"
    ⟨⟨"01:00 PM", "Monday"⟩, none, CloudResp.json (some "ok") none none⟩ "ok" none
    (by decide) (by decide) rfl (by decide)
